import Mathlib

/-! Shallow embedding of `stomp_moveit/src/stomp_planner.cpp`, the STOMP
planner adapter for MoveIt.  External collaborators (the STOMP optimizer,
inverse kinematics, the planning-scene collision check and the iterative
time parameterization) are modelled as oracles gathered in an `Env`
record; machine doubles are modelled as rationals.  Control flow is
translated branch by branch from the source file. -/

namespace StompMoveit

/-- Error code value `moveit_msgs::MoveItErrorCodes::SUCCESS`. -/
def SUCCESS : Int := 1

/-- Error code value `moveit_msgs::MoveItErrorCodes::FAILURE`. -/
def FAILURE : Int := 99999

/-- Error code value `moveit_msgs::MoveItErrorCodes::PLANNING_FAILED`. -/
def PLANNING_FAILED : Int := -1

/-- Error code value `moveit_msgs::MoveItErrorCodes::INVALID_MOTION_PLAN`. -/
def INVALID_MOTION_PLAN : Int := -2

/-- One sample of `trajectory_msgs::JointTrajectoryPoint`. -/
structure JointTrajectoryPoint where
  positions : List ℚ
  velocities : List ℚ
  accelerations : List ℚ
  time_from_start : ℚ
  deriving DecidableEq, Inhabited

/-- A `trajectory_msgs::JointTrajectory`: named joints plus sample points. -/
structure JointTrajectory where
  joint_names : List String
  points : List JointTrajectoryPoint
  deriving DecidableEq, Inhabited

/-- An `Eigen::MatrixXd` as the planner uses it: `rows` counts degrees of
freedom and `cols` lists the column vectors, one per timestep. -/
structure MatrixXd where
  rows : Nat
  cols : List (List ℚ)
  deriving DecidableEq, Inhabited

/-- A robot state restricted to what the planner reads: the variable
position of each named joint. -/
def RobotState := String → ℚ

/-- The data of a `moveit::core::JointModelGroup` the planner consults:
the ordered active joint names and each variable's position bounds. -/
structure JointModelGroup where
  activeJointNames : List String
  bounds : String → ℚ × ℚ

/-- The write `state->setVariablePosition(name, value)`. -/
def setVariablePosition (s : RobotState) (n : String) (v : ℚ) : RobotState :=
  fun m => if m = n then v else s m

/-- MoveIt `JointModel::enforcePositionBounds` on one variable: clamp below
the lower bound first, then above the upper bound. -/
def enforcePos (lo hi v : ℚ) : ℚ :=
  if v < lo then lo else if v > hi then hi else v

/-- The call `state->enforceBounds(joint_group)`: clamp every active joint
variable of the group to its bounds. -/
def enforceBounds (g : JointModelGroup) (s : RobotState) : RobotState :=
  fun n =>
    if n ∈ g.activeJointNames then enforcePos (g.bounds n).1 (g.bounds n).2 (s n) else s n

/-- A `moveit_msgs::JointConstraint` (the fields the planner reads). -/
structure JointConstraint where
  joint_name : String
  position : ℚ
  deriving DecidableEq, Inhabited

/-- A Cartesian pose assembled for the IK query. -/
structure Pose where
  position : ℚ × ℚ × ℚ
  orientation : ℚ × ℚ × ℚ × ℚ
  deriving DecidableEq, Inhabited

/-- A `moveit_msgs::PositionConstraint`: the planner only reads
`constraint_region.primitive_poses[0].position`. -/
structure PositionConstraint where
  primitive_pose_positions : List (ℚ × ℚ × ℚ)
  deriving DecidableEq, Inhabited

/-- A `moveit_msgs::OrientationConstraint`: the planner only reads the
quaternion. -/
structure OrientationConstraint where
  orientation : ℚ × ℚ × ℚ × ℚ
  deriving DecidableEq, Inhabited

/-- A `moveit_msgs::Constraints` set (the fields the planner reads). -/
structure Constraints where
  joint_constraints : List JointConstraint
  position_constraints : List PositionConstraint
  orientation_constraints : List OrientationConstraint
  deriving DecidableEq, Inhabited

/-- A `moveit_msgs::MotionPlanRequest` as consumed by the planner.
`start_state` is `some s` exactly when `robotStateMsgToRobotState`
succeeds and yields the state `s`. -/
structure MotionPlanRequest where
  start_state : Option RobotState
  goal_constraints : List Constraints
  trajectory_constraints : List Constraints
  max_velocity_scaling_factor : ℚ

/-- The `stomp_core::StompConfiguration` value object. -/
structure StompConfiguration where
  control_cost_weight : ℚ
  initialization_method : Int
  num_timesteps : Int
  delta_t : ℚ
  num_iterations : Int
  num_iterations_after_valid : Int
  max_rollouts : Int
  num_rollouts : Int
  exponentiated_cost_sensitivity : ℚ
  num_dimensions : Int
  deriving DecidableEq, Inhabited

/-- Oracles for the external collaborators used during one solve:
the optimization task binding, the STOMP optimizer (given the config most
recently applied with `setConfig`), the planning scene validity check, the
time parameterization block (lines 291 to 303: robot-trajectory
conversion, `computeTimeStamps`, message conversion — `none` when
`computeTimeStamps` fails), inverse kinematics `setFromIK`, and the
measured wall-clock durations of the two `solve` overloads. -/
structure Env where
  setMotionPlanRequestOk : Bool
  stompSolveSeeded : StompConfiguration → MatrixXd → Option MatrixXd
  stompSolveBoundary : StompConfiguration → List ℚ → List ℚ → Option MatrixXd
  hasPlanningScene : Bool
  isPathValid : JointTrajectory → Bool
  timeParameterize : JointTrajectory → ℚ → Option JointTrajectory
  setFromIK : RobotState → Pose → Int → Int → Option RobotState
  elapsedDetailed : ℚ
  elapsedCompact : ℚ

/-- The planner state the claims depend on: its planning group and the
baseline STOMP configuration `stomp_config_` built at setup. -/
structure StompPlanner where
  group : JointModelGroup
  stomp_config : StompConfiguration

/-- Source constant `static int const IK_ATTEMPTS = 10;`. -/
def IK_ATTEMPTS : Int := 10

/-- C++ double-to-int conversion: truncation toward zero. -/
def cppIntOfDouble (q : ℚ) : Int := if q < 0 then ⌈q⌉ else ⌊q⌋

/-- Source constant `static int const IK_TIMEOUT = 0.05;` — an `int`
initialized from the double literal `0.05`. -/
def IK_TIMEOUT : Int := cppIntOfDouble (5 / 100)

/-- `StompPlanner::jointTrajectorytoParameters`: column `step` of the
matrix holds the first `dof` position entries of sample `step`, where
`dof` is the trajectory's joint-name count. -/
def jointTrajectorytoParameters (traj : JointTrajectory) : MatrixXd :=
  let dof := traj.joint_names.length
  { rows := dof,
    cols := traj.points.map (fun pt => (List.range dof).map (fun j => pt.positions.getD j 0)) }

/-- The untimed trajectory built by the first loop of
`StompPlanner::parametersToJointTrajectory`: positions from the matrix
columns, velocities, accelerations and time-from-start zero-filled. -/
def untimedTrajectory (p : StompPlanner) (parameters : MatrixXd) : JointTrajectory :=
  { joint_names := p.group.activeJointNames,
    points := parameters.cols.map (fun c =>
      { positions := (List.range parameters.rows).map (fun j => c.getD j 0),
        velocities := List.replicate parameters.rows 0,
        accelerations := List.replicate parameters.rows 0,
        time_from_start := 0 }) }

/-- `StompPlanner::parametersToJointTrajectory`: build the untimed
trajectory, then run the time parameterization; when it succeeds the
trajectory is replaced by the timed one, otherwise the untimed trajectory
is kept.  The function returns `true` on both paths. -/
def parametersToJointTrajectory (p : StompPlanner) (env : Env) (req : MotionPlanRequest)
    (parameters : MatrixXd) : Bool × JointTrajectory :=
  let trajectory := untimedTrajectory p parameters
  match env.timeParameterize trajectory req.max_velocity_scaling_factor with
  | some timed => (true, timed)
  | none => (true, trajectory)

/-- The waypoint loop of `StompPlanner::extractSeedTrajectory`: each
waypoint must carry exactly one joint constraint per active joint, with
joint names in the group's canonical order; the first violation aborts
with `none` (the source's early `return false`). -/
def seedPoints (names : List String) : List Constraints → Option (List JointTrajectoryPoint)
  | [] => some []
  | c :: rest =>
    if c.joint_constraints.length ≠ names.length then none
    else if (c.joint_constraints.zip names).all (fun x => x.1.joint_name == x.2) then
      match seedPoints names rest with
      | some ps =>
        some ({ positions := c.joint_constraints.map (fun jc => jc.position),
                velocities := [], accelerations := [], time_from_start := 0 } :: ps)
      | none => none
    else none

/-- `StompPlanner::extractSeedTrajectory`: `none` models the source
returning `false` (no seed), `some` the validated seed trajectory. -/
def extractSeedTrajectory (p : StompPlanner) (req : MotionPlanRequest) :
    Option JointTrajectory :=
  if req.trajectory_constraints = [] then none
  else
    match seedPoints p.group.activeJointNames req.trajectory_constraints with
    | some pts => some { joint_names := p.group.activeJointNames, points := pts }
    | none => none

/-- The pose assembled for the IK query from the first position and
orientation constraints of the goal constraint set. -/
def goalPose (gc : Constraints) : Pose :=
  { position := ((gc.position_constraints.headD default).primitive_pose_positions).headD (0, 0, 0),
    orientation := (gc.orientation_constraints.headD default).orientation }

/-- Result of `StompPlanner::getStartAndGoal`.  `ok` is the boolean
return, `start` and `goal` the output vectors, and `ikCall` records the
arguments of the `setFromIK` call when one was issued (pose, attempts,
timeout). -/
structure StartGoalResult where
  ok : Bool
  start : List ℚ
  goal : List ℚ
  ikCall : Option (Pose × Int × Int)

/-- `StompPlanner::getStartAndGoal`: parse the start state, enforce
bounds and read the start vector; then resolve the goal either by IK (no
joint constraints in the first goal set) or by writing the joint
constraints into the state, enforcing bounds and reading it back. -/
def getStartAndGoal (p : StompPlanner) (env : Env) (req : MotionPlanRequest) :
    StartGoalResult :=
  match req.start_state with
  | none => { ok := false, start := [], goal := [], ikCall := none }
  | some st0 =>
    let names := p.group.activeJointNames
    let st1 := enforceBounds p.group st0
    let start := names.map st1
    match req.goal_constraints with
    | [] => { ok := false, start := start, goal := [], ikCall := none }
    | gc :: _ =>
      match gc.joint_constraints with
      | [] =>
        let pose := goalPose gc
        match env.setFromIK st1 pose IK_ATTEMPTS IK_TIMEOUT with
        | none =>
          { ok := false, start := start, goal := [],
            ikCall := some (pose, IK_ATTEMPTS, IK_TIMEOUT) }
        | some st2 =>
          let st3 := enforceBounds p.group st2
          { ok := true, start := start, goal := names.map st3,
            ikCall := some (pose, IK_ATTEMPTS, IK_TIMEOUT) }
      | _ :: _ =>
        let st2 := gc.joint_constraints.foldl
          (fun s jc => setVariablePosition s jc.joint_name jc.position) st1
        let st3 := enforceBounds p.group st2
        { ok := true, start := start, goal := names.map st3, ikCall := none }

/-- A `planning_interface::MotionPlanDetailedResponse` (the fields the
planner writes).  The trajectory slot is `none` while the shared pointer
is still null. -/
structure MotionPlanDetailedResponse where
  description : List String
  processing_time : List ℚ
  trajectory : List (Option JointTrajectory)
  error_code : Int

/-- Which optimizer dispatch the solve selected. -/
inductive SolveMode where
  | seeded
  | boundary
  deriving DecidableEq

/-- Result of the detailed `StompPlanner::solve`.  `ret` is the boolean
return and `res` the response; `mode` records which branch of the
seed-or-boundary dispatch ran, `appliedConfig` the configuration passed to
`stomp_->setConfig` when that call was reached, and `plannerAfter` the
planner state when the call returns. -/
structure DetailedSolveResult where
  ret : Bool
  res : MotionPlanDetailedResponse
  mode : Option SolveMode
  appliedConfig : Option StompConfiguration
  plannerAfter : StompPlanner

/-- The response initialization at the top of the detailed solve:
one empty description, one zero processing time, one null trajectory
slot, error code `SUCCESS`. -/
def initResponse : MotionPlanDetailedResponse :=
  { description := [""], processing_time := [0], trajectory := [none], error_code := SUCCESS }

/-- Lines 236 to 270 of the source, shared by both dispatch branches:
handle the optimizer outcome, reify the matrix, run the planning-scene
validity check, stamp the processing time and return `true`. -/
def handleResults (p : StompPlanner) (env : Env) (req : MotionPlanRequest)
    (mode : Option SolveMode) (cfg : Option StompConfiguration)
    (solveOut : Option MatrixXd) : DetailedSolveResult :=
  match solveOut with
  | none =>
    { ret := false, res := { initResponse with error_code := PLANNING_FAILED },
      mode := mode, appliedConfig := cfg, plannerAfter := p }
  | some parameters =>
    let conv := parametersToJointTrajectory p env req parameters
    if conv.1 = false then
      { ret := false, res := { initResponse with error_code := PLANNING_FAILED },
        mode := mode, appliedConfig := cfg, plannerAfter := p }
    else
      let res1 := { initResponse with trajectory := [some conv.2] }
      let res2 :=
        if env.hasPlanningScene && !(env.isPathValid conv.2) then
          { res1 with error_code := PLANNING_FAILED }
        else res1
      { ret := true, res := { res2 with processing_time := [env.elapsedDetailed] },
        mode := mode, appliedConfig := cfg, plannerAfter := p }

/-- `StompPlanner::solve(MotionPlanDetailedResponse&)`: copy the baseline
configuration, look for a seed; when seeded, override the timestep count
with the seed's sample count, bind the request, apply the configuration
and run the seeded solve; otherwise resolve start and goal, bind the
request, apply the configuration and run the boundary solve; then handle
the results. -/
def solveDetailed (p : StompPlanner) (env : Env) (req : MotionPlanRequest) :
    DetailedSolveResult :=
  let config0 := p.stomp_config
  match extractSeedTrajectory p req with
  | some seed =>
    let initial := jointTrajectorytoParameters seed
    let config := { config0 with num_timesteps := (seed.points.length : Int) }
    if env.setMotionPlanRequestOk = false then
      { ret := false, res := { initResponse with error_code := FAILURE },
        mode := some SolveMode.seeded, appliedConfig := none, plannerAfter := p }
    else
      handleResults p env req (some SolveMode.seeded) (some config)
        (env.stompSolveSeeded config initial)
  | none =>
    let sg := getStartAndGoal p env req
    if sg.ok = false then
      { ret := false, res := { initResponse with error_code := INVALID_MOTION_PLAN },
        mode := some SolveMode.boundary, appliedConfig := none, plannerAfter := p }
    else if env.setMotionPlanRequestOk = false then
      { ret := false, res := { initResponse with error_code := FAILURE },
        mode := some SolveMode.boundary, appliedConfig := none, plannerAfter := p }
    else
      handleResults p env req (some SolveMode.boundary) (some config0)
        (env.stompSolveBoundary config0 sg.start sg.goal)

/-- A `planning_interface::MotionPlanResponse` (the fields the planner
writes). -/
structure MotionPlanResponse where
  trajectory : Option JointTrajectory
  planning_time : ℚ
  error_code : Int

/-- `StompPlanner::solve(MotionPlanResponse&)`: run the detailed solve,
then copy the last trajectory slot, the measured planning time and the
error code into the compact response. -/
def solveCompact (p : StompPlanner) (env : Env) (req : MotionPlanRequest) :
    Bool × MotionPlanResponse :=
  let d := solveDetailed p env req
  (d.ret,
   { trajectory := d.res.trajectory.getLastD none,
     planning_time := env.elapsedCompact,
     error_code := d.res.error_code })

/-- `StompPlanner::terminate`: `stompExists` models whether the optimizer
handle `stomp_` is non-null, `cancelOk` the outcome of `stomp_->cancel()`
when it is called. -/
def terminate (stompExists : Bool) (cancelOk : Bool) : Bool :=
  if stompExists then
    if !cancelOk then false else true
  else true

/-- Concrete two-joint planning group used for evaluations. -/
def groupW : JointModelGroup :=
  { activeJointNames := ["j1", "j2"], bounds := fun _ => (-10, 10) }

/-- Concrete baseline STOMP configuration used for evaluations. -/
def cfgW : StompConfiguration :=
  { control_cost_weight := 0, initialization_method := 1, num_timesteps := 40,
    delta_t := 1, num_iterations := 50, num_iterations_after_valid := 0,
    max_rollouts := 100, num_rollouts := 10, exponentiated_cost_sensitivity := 10,
    num_dimensions := 2 }

/-- Concrete planner used for evaluations. -/
def pW : StompPlanner := { group := groupW, stomp_config := cfgW }

/-- Concrete start state (all joints at zero) used for evaluations. -/
def startStateW : RobotState := fun _ => 0

/-- Concrete joint-space goal constraint set used for evaluations. -/
def goalJointW : Constraints :=
  { joint_constraints := [{ joint_name := "j1", position := 1 },
                          { joint_name := "j2", position := 2 }],
    position_constraints := [], orientation_constraints := [] }

/-- Concrete seedless request with a joint-space goal. -/
def reqW : MotionPlanRequest :=
  { start_state := some startStateW, goal_constraints := [goalJointW],
    trajectory_constraints := [], max_velocity_scaling_factor := 1 }

/-- Concrete optimizer output matrix (two joints, two timesteps). -/
def matW : MatrixXd := { rows := 2, cols := [[0, 0], [1, 2]] }

/-- Concrete environment: binding succeeds, the boundary solve returns
`matW`, the path is valid, time parameterization fails, IK fails. -/
def envBase : Env :=
  { setMotionPlanRequestOk := true,
    stompSolveSeeded := fun _ _ => none,
    stompSolveBoundary := fun _ _ _ => some matW,
    hasPlanningScene := true,
    isPathValid := fun _ => true,
    timeParameterize := fun _ _ => none,
    setFromIK := fun _ _ _ _ => none,
    elapsedDetailed := 5,
    elapsedCompact := 7 }

/-- Like `envBase` but the planning scene reports every path in collision. -/
def envCollide : Env := { envBase with isPathValid := fun _ => false }

/-- Like `envBase` but the boundary solve fails to converge. -/
def envOptFail : Env := { envBase with stompSolveBoundary := fun _ _ _ => none }

/-- Concrete Cartesian goal constraint set (no joint constraints). -/
def goalCartW : Constraints :=
  { joint_constraints := [],
    position_constraints := [{ primitive_pose_positions := [(1, 2, 3)] }],
    orientation_constraints := [{ orientation := (0, 0, 0, 1) }] }

/-- Concrete seedless request with a Cartesian goal. -/
def reqCartW : MotionPlanRequest :=
  { start_state := some startStateW, goal_constraints := [goalCartW],
    trajectory_constraints := [], max_velocity_scaling_factor := 1 }

/-- Concrete two-joint, two-sample trajectory used for evaluations. -/
def trajW : JointTrajectory :=
  { joint_names := ["j1", "j2"],
    points := [{ positions := [0, 1], velocities := [], accelerations := [],
                 time_from_start := 0 },
               { positions := [2, 3], velocities := [], accelerations := [],
                 time_from_start := 0 }] }

/-- Concrete seed waypoint with too few joint constraints for `groupW`. -/
def badSeedC : Constraints :=
  { joint_constraints := [{ joint_name := "j1", position := 0 }],
    position_constraints := [], orientation_constraints := [] }

/-- Concrete request carrying the malformed seed waypoint. -/
def reqBadSeedW : MotionPlanRequest := { reqW with trajectory_constraints := [badSeedC] }

/-- Concrete well-formed seed waypoint one. -/
def seedC1 : Constraints :=
  { joint_constraints := [{ joint_name := "j1", position := 0 },
                          { joint_name := "j2", position := 0 }],
    position_constraints := [], orientation_constraints := [] }

/-- Concrete well-formed seed waypoint two. -/
def seedC2 : Constraints :=
  { joint_constraints := [{ joint_name := "j1", position := 1 },
                          { joint_name := "j2", position := 2 }],
    position_constraints := [], orientation_constraints := [] }

/-- Concrete request carrying a valid two-point seed. -/
def reqSeedW : MotionPlanRequest := { reqW with trajectory_constraints := [seedC1, seedC2] }

/-- The seed trajectory extracted from `reqSeedW`. -/
def seedW : JointTrajectory :=
  { joint_names := ["j1", "j2"],
    points := [{ positions := [0, 0], velocities := [], accelerations := [],
                 time_from_start := 0 },
               { positions := [1, 2], velocities := [], accelerations := [],
                 time_from_start := 0 }] }

/-- Concrete request whose start state fails to parse. -/
def reqNoStartW : MotionPlanRequest :=
  { start_state := none, goal_constraints := [goalJointW],
    trajectory_constraints := [], max_velocity_scaling_factor := 1 }

/-- Concrete joint-space goal constraint set naming only joint j1. -/
def goalPartialW : Constraints :=
  { joint_constraints := [{ joint_name := "j1", position := 1 }],
    position_constraints := [], orientation_constraints := [] }

/-- Concrete seedless request whose goal names only joint j1. -/
def reqPartialW : MotionPlanRequest :=
  { start_state := some startStateW, goal_constraints := [goalPartialW],
    trajectory_constraints := [], max_velocity_scaling_factor := 1 }

theorem handleResults_time (p : StompPlanner) (env : Env) (req : MotionPlanRequest)
    (mode : Option SolveMode) (cfg : Option StompConfiguration) (s : Option MatrixXd) :
    (handleResults p env req mode cfg s).res.processing_time =
      (if (handleResults p env req mode cfg s).ret = true then [env.elapsedDetailed]
       else [(0 : ℚ)]) := by
  unfold handleResults
  cases s with
  | none => simp [initResponse]
  | some m =>
    by_cases hc : (parametersToJointTrajectory p env req m).1 = false
    · simp [hc, initResponse]
    · simp only [hc, if_false]
      split <;> simp [initResponse]

/-- C1: at a concrete solve in which the optimizer succeeds, the matrix is
converted to a trajectory, and the environment model reports that
trajectory in collision, the detailed solve sets the response error code
to PLANNING_FAILED but its boolean return is still `true`: the source
assigns `success = false` and then executes `return true`, so the boolean
return does not report the failure the claim (and the spec) require. -/
theorem C1_collision_code_set_but_returns_true :
    (solveDetailed pW envCollide reqW).ret = true ∧
    (solveDetailed pW envCollide reqW).res.error_code = PLANNING_FAILED := by
  constructor <;> rfl

/-- C6: `parametersToJointTrajectory` returns `true` for every input, and
when the time parameterization fails the output is the untimed trajectory
whose every point carries zero-filled velocities, accelerations and
time-from-start. -/
theorem C6_parameters_to_trajectory_total (p : StompPlanner) (env : Env)
    (req : MotionPlanRequest) (m : MatrixXd) :
    (parametersToJointTrajectory p env req m).1 = true ∧
    (env.timeParameterize (untimedTrajectory p m) req.max_velocity_scaling_factor = none →
      (parametersToJointTrajectory p env req m).2 = untimedTrajectory p m ∧
      ∀ pt ∈ (parametersToJointTrajectory p env req m).2.points,
        pt.velocities = List.replicate m.rows 0 ∧
        pt.accelerations = List.replicate m.rows 0 ∧
        pt.time_from_start = 0) := by
  constructor
  · unfold parametersToJointTrajectory
    cases h : env.timeParameterize (untimedTrajectory p m) req.max_velocity_scaling_factor <;>
      simp [h]
  · intro hn
    have hval : parametersToJointTrajectory p env req m = (true, untimedTrajectory p m) := by
      simp [parametersToJointTrajectory, hn]
    refine ⟨by rw [hval], ?_⟩
    intro pt hpt
    rw [hval] at hpt
    simp only [untimedTrajectory, List.mem_map] at hpt
    obtain ⟨c, _, hc⟩ := hpt
    subst hc
    exact ⟨rfl, rfl, rfl⟩

/-- C6 witness: the totality theorem evaluated at a concrete matrix in an
environment whose time parameterization fails. -/
theorem C6_witness :
    (parametersToJointTrajectory pW envBase reqW matW).1 = true ∧
    (parametersToJointTrajectory pW envBase reqW matW).2 = untimedTrajectory pW matW :=
  ⟨(C6_parameters_to_trajectory_total pW envBase reqW matW).1,
   ((C6_parameters_to_trajectory_total pW envBase reqW matW).2 rfl).1⟩

/-- C7 counterexample: at a concrete solve in which the optimizer fails,
the detailed response's processing-time entry is not set to the measured
elapsed wall-clock time (it keeps its initialized value 0 while the
measured time is 5): the claim fails on the optimizer-failure path. -/
theorem C7_cx_processing_time_not_set_on_failure :
    ¬ ((solveDetailed pW envOptFail reqW).res.processing_time =
        [envOptFail.elapsedDetailed]) := by
  decide

/-- C7 amended: the compact solve sets its planning-time entry to the
measured elapsed time on every path; the detailed solve writes the
measured elapsed time only on the paths that return `true` (optimizer and
reification success, including the collision-demoted case) and leaves the
initialized value 0 on every earlier failure path. -/
theorem C7_amended_processing_time (p : StompPlanner) (env : Env)
    (req : MotionPlanRequest) :
    ((solveDetailed p env req).res.processing_time =
      (if (solveDetailed p env req).ret = true then [env.elapsedDetailed]
       else [(0 : ℚ)])) ∧
    (solveCompact p env req).2.planning_time = env.elapsedCompact := by
  refine ⟨?_, rfl⟩
  unfold solveDetailed
  cases hx : extractSeedTrajectory p req with
  | some seed =>
    by_cases hmpr : env.setMotionPlanRequestOk = false
    · simp [hmpr, initResponse]
    · simp only [hmpr, if_false]
      exact handleResults_time ..
  | none =>
    by_cases hok : (getStartAndGoal p env req).ok = false
    · simp [hok, initResponse]
    · by_cases hmpr : env.setMotionPlanRequestOk = false
      · simp [hok, hmpr, initResponse]
      · simp only [hok, hmpr, if_false]
        exact handleResults_time ..

/-- C8 counterexample: when no Optimizer instance exists (the handle is
null), `terminate` returns `true` even in an environment where a cancel
request would fail, contradicting the claim that it returns failure when
the signal cannot be delivered. -/
theorem C8_cx_terminate_no_instance : terminate false false = true := rfl

/-- C8 amended: `terminate` returns success when no Optimizer instance
exists; when an instance exists it returns success exactly when the
Optimizer's cancel succeeds. -/
theorem C8_amended_terminate (c : Bool) :
    terminate false c = true ∧ terminate true c = c := by
  cases c <;> exact ⟨rfl, rfl⟩

theorem IK_TIMEOUT_val : IK_TIMEOUT = 0 := by
  unfold IK_TIMEOUT cppIntOfDouble
  rw [if_neg (by norm_num)]
  rw [Int.floor_eq_zero_iff]
  constructor <;> norm_num

/-- C10: whenever the Cartesian-goal branch of `getStartAndGoal` runs, the
IK query is issued with `IK_ATTEMPTS = 10` attempts and `IK_TIMEOUT = 0`:
the source declares `IK_TIMEOUT` as an `int` initialized from the double
`0.05`, which truncates to zero. -/
theorem C10_ik_attempts_and_timeout (p : StompPlanner) (env : Env)
    (req : MotionPlanRequest) (st0 : RobotState) (gc : Constraints)
    (rest : List Constraints)
    (hst : req.start_state = some st0)
    (hgc : req.goal_constraints = gc :: rest)
    (hjc : gc.joint_constraints = []) :
    (getStartAndGoal p env req).ikCall = some (goalPose gc, IK_ATTEMPTS, IK_TIMEOUT) ∧
    IK_ATTEMPTS = 10 ∧ IK_TIMEOUT = 0 := by
  refine ⟨?_, rfl, IK_TIMEOUT_val⟩
  unfold getStartAndGoal
  rw [hst, hgc]
  cases h : env.setFromIK (enforceBounds p.group st0) (goalPose gc) IK_ATTEMPTS IK_TIMEOUT <;>
    simp [hjc, h]

theorem handleResults_mode (p : StompPlanner) (env : Env) (req : MotionPlanRequest)
    (mode : Option SolveMode) (cfg : Option StompConfiguration) (s : Option MatrixXd) :
    (handleResults p env req mode cfg s).mode = mode := by
  unfold handleResults
  cases s with
  | none => rfl
  | some m =>
    by_cases hc : (parametersToJointTrajectory p env req m).1 = false <;> simp [hc]

theorem handleResults_config (p : StompPlanner) (env : Env) (req : MotionPlanRequest)
    (mode : Option SolveMode) (cfg : Option StompConfiguration) (s : Option MatrixXd) :
    (handleResults p env req mode cfg s).appliedConfig = cfg := by
  unfold handleResults
  cases s with
  | none => rfl
  | some m =>
    by_cases hc : (parametersToJointTrajectory p env req m).1 = false <;> simp [hc]

theorem handleResults_planner (p : StompPlanner) (env : Env) (req : MotionPlanRequest)
    (mode : Option SolveMode) (cfg : Option StompConfiguration) (s : Option MatrixXd) :
    (handleResults p env req mode cfg s).plannerAfter = p := by
  unfold handleResults
  cases s with
  | none => rfl
  | some m =>
    by_cases hc : (parametersToJointTrajectory p env req m).1 = false <;> simp [hc]

theorem range_map_getD (l : List ℚ) :
    (List.range l.length).map (fun j => l.getD j 0) = l := by
  induction l with
  | nil => rfl
  | cons a tl ih =>
    rw [List.length_cons, List.range_succ_eq_map, List.map_cons, List.map_map]
    have h : ((fun j => (a :: tl).getD j 0) ∘ Nat.succ) = (fun j => tl.getD j 0) := by
      funext j
      simp [List.getD_cons_succ]
    rw [List.getD_cons_zero, h, ih]

/-- C2: converting a joint trajectory whose every sample holds exactly one
position per joint name into a parameter matrix and back reproduces the
position values exactly at every sample and joint, provided the external
time parameterizer preserves positions (it only assigns timing data). -/
theorem C2_bridge_roundtrip (p : StompPlanner) (env : Env) (req : MotionPlanRequest)
    (traj : JointTrajectory)
    (hlen : ∀ pt ∈ traj.points, pt.positions.length = traj.joint_names.length)
    (htp : ∀ t s u, env.timeParameterize t s = some u →
      u.points.map (fun pt => pt.positions) = t.points.map (fun pt => pt.positions)) :
    ((parametersToJointTrajectory p env req (jointTrajectorytoParameters traj)).2).points.map
        (fun pt => pt.positions) =
      traj.points.map (fun pt => pt.positions) := by
  have huntimed : (untimedTrajectory p (jointTrajectorytoParameters traj)).points.map
      (fun pt => pt.positions) = traj.points.map (fun pt => pt.positions) := by
    simp only [untimedTrajectory, jointTrajectorytoParameters, List.map_map]
    refine List.map_congr_left ?_
    intro pt hpt
    simp only [Function.comp]
    rw [← hlen pt hpt]
    simp only [range_map_getD]
  cases h : env.timeParameterize (untimedTrajectory p (jointTrajectorytoParameters traj))
      req.max_velocity_scaling_factor with
  | none =>
    have hval : (parametersToJointTrajectory p env req (jointTrajectorytoParameters traj)).2 =
        untimedTrajectory p (jointTrajectorytoParameters traj) := by
      simp [parametersToJointTrajectory, h]
    rw [hval]
    exact huntimed
  | some u =>
    have hval : (parametersToJointTrajectory p env req (jointTrajectorytoParameters traj)).2 =
        u := by
      simp [parametersToJointTrajectory, h]
    rw [hval, htp _ _ _ h]
    exact huntimed

/-- C2 witness: the round trip evaluated at a concrete two-joint,
two-sample trajectory. -/
theorem C2_witness :
    ((parametersToJointTrajectory pW envBase reqW (jointTrajectorytoParameters trajW)).2).points.map
        (fun pt => pt.positions) =
      trajW.points.map (fun pt => pt.positions) :=
  C2_bridge_roundtrip pW envBase reqW trajW (by decide) (fun t s u h => nomatch h)

theorem seedPoints_none_of_bad (names : List String) (l : List Constraints)
    (c : Constraints) (hmem : c ∈ l)
    (hbad : c.joint_constraints.length ≠ names.length ∨
      ∃ x ∈ c.joint_constraints.zip names, x.1.joint_name ≠ x.2) :
    seedPoints names l = none := by
  induction l with
  | nil => cases hmem
  | cons d rest ih =>
    rcases List.mem_cons.mp hmem with rfl | hmem2
    · rcases hbad with hlen | ⟨x, hx, hne⟩
      · simp only [seedPoints, if_pos hlen]
      · by_cases hlen : c.joint_constraints.length ≠ names.length
        · simp only [seedPoints, if_pos hlen]
        · have hall : (c.joint_constraints.zip names).all
              (fun x => x.1.joint_name == x.2) = false :=
            List.all_eq_false.mpr ⟨x, hx, by simpa using hne⟩
          simp [seedPoints, hlen, hall]
    · have hrest := ih hmem2
      by_cases h1 : d.joint_constraints.length ≠ names.length
      · simp only [seedPoints, if_pos h1]
      · simp only [seedPoints, if_neg h1, hrest]
        split <;> rfl

/-- C3: a request whose seed has any waypoint with a wrong per-joint
constraint count, or with joint names out of the group's canonical order,
yields no seed from `extractSeedTrajectory`, and the detailed solve takes
the boundary-value branch instead of aborting the request. -/
theorem C3_seed_mismatch_falls_back (p : StompPlanner) (env : Env)
    (req : MotionPlanRequest) (c : Constraints)
    (hmem : c ∈ req.trajectory_constraints)
    (hbad : c.joint_constraints.length ≠ p.group.activeJointNames.length ∨
      ∃ x ∈ c.joint_constraints.zip p.group.activeJointNames, x.1.joint_name ≠ x.2) :
    extractSeedTrajectory p req = none ∧
    (solveDetailed p env req).mode = some SolveMode.boundary := by
  have hnone : extractSeedTrajectory p req = none := by
    unfold extractSeedTrajectory
    by_cases hemp : req.trajectory_constraints = []
    · rw [if_pos hemp]
    · rw [if_neg hemp, seedPoints_none_of_bad p.group.activeJointNames _ c hmem hbad]
  refine ⟨hnone, ?_⟩
  unfold solveDetailed
  rw [hnone]
  by_cases hok : (getStartAndGoal p env req).ok = false
  · simp [hok]
  · by_cases hmpr : env.setMotionPlanRequestOk = false
    · simp [hok, hmpr]
    · simp [hok, hmpr, handleResults_mode]

/-- C3 witness: the fallback theorem evaluated at a concrete request whose
single seed waypoint has one constraint for a two-joint group. -/
theorem C3_witness :
    extractSeedTrajectory pW reqBadSeedW = none ∧
    (solveDetailed pW envBase reqBadSeedW).mode = some SolveMode.boundary :=
  C3_seed_mismatch_falls_back pW envBase reqBadSeedW badSeedC (by decide)
    (Or.inl (by decide))

/-- C5: with no seed, when the goal-constraint list is empty, or the start
state cannot be parsed, or IK fails for a Cartesian goal, then
`getStartAndGoal` returns failure and the detailed solve returns `false`
with error code INVALID_MOTION_PLAN. -/
theorem C5_boundary_failure (p : StompPlanner) (env : Env) (req : MotionPlanRequest)
    (hns : extractSeedTrajectory p req = none)
    (hfail : req.start_state = none ∨ req.goal_constraints = [] ∨
      ∃ st0 gc rest, req.start_state = some st0 ∧ req.goal_constraints = gc :: rest ∧
        gc.joint_constraints = [] ∧
        env.setFromIK (enforceBounds p.group st0) (goalPose gc) IK_ATTEMPTS IK_TIMEOUT
          = none) :
    (getStartAndGoal p env req).ok = false ∧
    (solveDetailed p env req).ret = false ∧
    (solveDetailed p env req).res.error_code = INVALID_MOTION_PLAN := by
  have hok : (getStartAndGoal p env req).ok = false := by
    rcases hfail with h | h | ⟨st0, gc, rest, h1, h2, h3, h4⟩
    · simp [getStartAndGoal, h]
    · cases hst : req.start_state with
      | none => simp [getStartAndGoal, hst]
      | some st0 => simp [getStartAndGoal, hst, h]
    · simp [getStartAndGoal, h1, h2, h3, h4]
  refine ⟨hok, ?_, ?_⟩ <;>
  · unfold solveDetailed
    rw [hns]
    simp [hok, initResponse]

/-- C5 witness: the failure theorem evaluated at a concrete request whose
start state does not parse. -/
theorem C5_witness :
    (getStartAndGoal pW envBase reqNoStartW).ok = false ∧
    (solveDetailed pW envBase reqNoStartW).ret = false ∧
    (solveDetailed pW envBase reqNoStartW).res.error_code = INVALID_MOTION_PLAN :=
  C5_boundary_failure pW envBase reqNoStartW rfl (Or.inl rfl)

theorem getD_map_of_lt (f : String → ℚ) (l : List String) (j : Nat) (h : j < l.length) :
    (l.map f).getD j 0 = f (l.getD j "") := by
  rw [List.getD_eq_getElem?_getD, List.getElem?_map, List.getD_eq_getElem?_getD,
    List.getElem?_eq_getElem h]
  simp

theorem getD_mem_of_lt (l : List String) (j : Nat) (h : j < l.length) :
    l.getD j "" ∈ l := by
  rw [List.getD_eq_getElem l "" h]
  exact List.getElem_mem h

theorem enforcePos_id (lo hi v : ℚ) (h1 : lo ≤ v) (h2 : v ≤ hi) :
    enforcePos lo hi v = v := by
  unfold enforcePos
  rw [if_neg (by linarith), if_neg (by linarith)]

theorem enforcePos_bounds (lo hi v : ℚ) (h : lo ≤ hi) :
    lo ≤ enforcePos lo hi v ∧ enforcePos lo hi v ≤ hi := by
  unfold enforcePos
  by_cases h1 : v < lo
  · simp [h1, h]
  · rw [if_neg h1]
    by_cases h2 : v > hi
    · simp [h2, h]
    · rw [if_neg h2]
      exact ⟨not_lt.mp h1, not_lt.mp h2⟩

theorem enforceBounds_mem (g : JointModelGroup) (s : RobotState) (n : String)
    (h : n ∈ g.activeJointNames) :
    enforceBounds g s n = enforcePos (g.bounds n).1 (g.bounds n).2 (s n) := by
  simp [enforceBounds, h]

theorem foldl_setVar_not_mem (l : List JointConstraint) :
    ∀ (s : RobotState) (n : String), n ∉ l.map (fun jc => jc.joint_name) →
    (l.foldl (fun s jc => setVariablePosition s jc.joint_name jc.position) s) n = s n := by
  induction l with
  | nil =>
    intro s n h
    rfl
  | cons jc rest ih =>
    intro s n h
    simp only [List.map_cons, List.mem_cons, not_or] at h
    rw [List.foldl_cons, ih _ _ h.2]
    simp [setVariablePosition, h.1]

theorem foldl_setVar_mem (l : List JointConstraint) :
    ∀ (s : RobotState) (jc : JointConstraint), jc ∈ l →
    (l.map (fun x => x.joint_name)).Nodup →
    (l.foldl (fun s x => setVariablePosition s x.joint_name x.position) s) jc.joint_name
      = jc.position := by
  induction l with
  | nil =>
    intro s jc h hnd
    cases h
  | cons d rest ih =>
    intro s jc hmem hnd
    simp only [List.map_cons, List.nodup_cons] at hnd
    rw [List.foldl_cons]
    rcases List.mem_cons.mp hmem with rfl | hmem2
    · rw [foldl_setVar_not_mem rest _ _ hnd.1]
      simp [setVariablePosition]
    · exact ih _ jc hmem2 hnd.2

/-- C4: for a seedless request whose first goal constraint set carries
joint-space constraints, `getStartAndGoal` succeeds, each active joint
named by a goal constraint takes that constraint's position value, each
active joint not named retains the start vector's value, and every entry
of both vectors lies within the group's joint bounds (hypotheses: the
bounds are well formed, the constraint names are distinct, and each
constraint's position lies within its joint's bounds). -/
theorem C4_joint_goal (p : StompPlanner) (env : Env) (req : MotionPlanRequest)
    (st0 : RobotState) (gc : Constraints) (rest : List Constraints)
    (hst : req.start_state = some st0)
    (hgc : req.goal_constraints = gc :: rest)
    (hjc : gc.joint_constraints ≠ [])
    (hwf : ∀ n ∈ p.group.activeJointNames, (p.group.bounds n).1 ≤ (p.group.bounds n).2)
    (hnd : (gc.joint_constraints.map (fun jc => jc.joint_name)).Nodup)
    (hin : ∀ jc ∈ gc.joint_constraints,
      (p.group.bounds jc.joint_name).1 ≤ jc.position ∧
        jc.position ≤ (p.group.bounds jc.joint_name).2) :
    (getStartAndGoal p env req).ok = true ∧
    (∀ jc ∈ gc.joint_constraints, ∀ j, j < p.group.activeJointNames.length →
      p.group.activeJointNames.getD j "" = jc.joint_name →
      (getStartAndGoal p env req).goal.getD j 0 = jc.position) ∧
    (∀ j, j < p.group.activeJointNames.length →
      p.group.activeJointNames.getD j "" ∉
        gc.joint_constraints.map (fun jc => jc.joint_name) →
      (getStartAndGoal p env req).goal.getD j 0 =
        (getStartAndGoal p env req).start.getD j 0) ∧
    (∀ j, j < p.group.activeJointNames.length →
      ((p.group.bounds (p.group.activeJointNames.getD j "")).1 ≤
          (getStartAndGoal p env req).start.getD j 0 ∧
        (getStartAndGoal p env req).start.getD j 0 ≤
          (p.group.bounds (p.group.activeJointNames.getD j "")).2) ∧
      ((p.group.bounds (p.group.activeJointNames.getD j "")).1 ≤
          (getStartAndGoal p env req).goal.getD j 0 ∧
        (getStartAndGoal p env req).goal.getD j 0 ≤
          (p.group.bounds (p.group.activeJointNames.getD j "")).2)) := by
  have hres : getStartAndGoal p env req =
      { ok := true,
        start := p.group.activeJointNames.map (enforceBounds p.group st0),
        goal := p.group.activeJointNames.map (enforceBounds p.group
          (gc.joint_constraints.foldl
            (fun s jc => setVariablePosition s jc.joint_name jc.position)
            (enforceBounds p.group st0))),
        ikCall := none } := by
    cases hjcs : gc.joint_constraints with
    | nil => exact absurd hjcs hjc
    | cons a as => simp [getStartAndGoal, hst, hgc, hjcs]
  have hstart : (getStartAndGoal p env req).start =
      p.group.activeJointNames.map (enforceBounds p.group st0) := by rw [hres]
  have hgoal : (getStartAndGoal p env req).goal =
      p.group.activeJointNames.map (enforceBounds p.group
        (gc.joint_constraints.foldl
          (fun s jc => setVariablePosition s jc.joint_name jc.position)
          (enforceBounds p.group st0))) := by rw [hres]
  have hokk : (getStartAndGoal p env req).ok = true := by rw [hres]
  have hstartEntry : ∀ j, j < p.group.activeJointNames.length →
      (getStartAndGoal p env req).start.getD j 0 =
        enforceBounds p.group st0 (p.group.activeJointNames.getD j "") := by
    intro j hj
    rw [hstart, getD_map_of_lt _ _ _ hj]
  have hgoalEntry : ∀ j, j < p.group.activeJointNames.length →
      (getStartAndGoal p env req).goal.getD j 0 =
        enforceBounds p.group
          (gc.joint_constraints.foldl
            (fun s jc => setVariablePosition s jc.joint_name jc.position)
            (enforceBounds p.group st0))
          (p.group.activeJointNames.getD j "") := by
    intro j hj
    rw [hgoal, getD_map_of_lt _ _ _ hj]
  refine ⟨hokk, ?_, ?_, ?_⟩
  · intro jc hjcmem j hj hname
    rw [hgoalEntry j hj, hname]
    have hmemN : jc.joint_name ∈ p.group.activeJointNames := by
      rw [← hname]
      exact getD_mem_of_lt _ _ hj
    rw [enforceBounds_mem _ _ _ hmemN,
      foldl_setVar_mem gc.joint_constraints _ jc hjcmem hnd]
    exact enforcePos_id _ _ _ (hin jc hjcmem).1 (hin jc hjcmem).2
  · intro j hj hnot
    rw [hgoalEntry j hj, hstartEntry j hj]
    have hmemN : p.group.activeJointNames.getD j "" ∈ p.group.activeJointNames :=
      getD_mem_of_lt _ _ hj
    rw [enforceBounds_mem _ _ _ hmemN,
      foldl_setVar_not_mem gc.joint_constraints _ _ hnot,
      enforceBounds_mem _ _ _ hmemN]
    have hb := enforcePos_bounds
      (p.group.bounds (p.group.activeJointNames.getD j "")).1
      (p.group.bounds (p.group.activeJointNames.getD j "")).2
      (st0 (p.group.activeJointNames.getD j "")) (hwf _ hmemN)
    exact enforcePos_id _ _ _ hb.1 hb.2
  · intro j hj
    have hmemN : p.group.activeJointNames.getD j "" ∈ p.group.activeJointNames :=
      getD_mem_of_lt _ _ hj
    constructor
    · rw [hstartEntry j hj, enforceBounds_mem _ _ _ hmemN]
      exact enforcePos_bounds _ _ _ (hwf _ hmemN)
    · rw [hgoalEntry j hj, enforceBounds_mem _ _ _ hmemN]
      exact enforcePos_bounds _ _ _ (hwf _ hmemN)

/-- C4 witness: the boundary-resolution theorem evaluated at a concrete
two-joint group whose goal names only joint j1. -/
theorem C4_witness :
    (getStartAndGoal pW envBase reqPartialW).ok = true ∧
    (∀ jc ∈ goalPartialW.joint_constraints, ∀ j, j < pW.group.activeJointNames.length →
      pW.group.activeJointNames.getD j "" = jc.joint_name →
      (getStartAndGoal pW envBase reqPartialW).goal.getD j 0 = jc.position) ∧
    (∀ j, j < pW.group.activeJointNames.length →
      pW.group.activeJointNames.getD j "" ∉
        goalPartialW.joint_constraints.map (fun jc => jc.joint_name) →
      (getStartAndGoal pW envBase reqPartialW).goal.getD j 0 =
        (getStartAndGoal pW envBase reqPartialW).start.getD j 0) ∧
    (∀ j, j < pW.group.activeJointNames.length →
      ((pW.group.bounds (pW.group.activeJointNames.getD j "")).1 ≤
          (getStartAndGoal pW envBase reqPartialW).start.getD j 0 ∧
        (getStartAndGoal pW envBase reqPartialW).start.getD j 0 ≤
          (pW.group.bounds (pW.group.activeJointNames.getD j "")).2) ∧
      ((pW.group.bounds (pW.group.activeJointNames.getD j "")).1 ≤
          (getStartAndGoal pW envBase reqPartialW).goal.getD j 0 ∧
        (getStartAndGoal pW envBase reqPartialW).goal.getD j 0 ≤
          (pW.group.bounds (pW.group.activeJointNames.getD j "")).2)) :=
  C4_joint_goal pW envBase reqPartialW startStateW goalPartialW [] rfl rfl
    (by decide) (by decide) (by decide) (by decide)

/-- C9: for a seeded solve whose task binding succeeds, the configuration
applied to the Optimizer is the baseline configuration with only the
timestep count overridden to the seed's sample count, and the planner's
shared baseline configuration is unchanged by the solve. -/
theorem C9_seeded_config (p : StompPlanner) (env : Env) (req : MotionPlanRequest)
    (seed : JointTrajectory)
    (hseed : extractSeedTrajectory p req = some seed)
    (hmpr : env.setMotionPlanRequestOk = true) :
    (solveDetailed p env req).appliedConfig =
      some { p.stomp_config with num_timesteps := (seed.points.length : Int) } ∧
    (solveDetailed p env req).plannerAfter.stomp_config = p.stomp_config := by
  unfold solveDetailed
  rw [hseed]
  simp [hmpr, handleResults_config, handleResults_planner]

/-- C9 witness: the configuration theorem evaluated at a concrete request
with a valid two-point seed. -/
theorem C9_witness :
    (solveDetailed pW envBase reqSeedW).appliedConfig =
      some { pW.stomp_config with num_timesteps := (seedW.points.length : Int) } ∧
    (solveDetailed pW envBase reqSeedW).plannerAfter.stomp_config = pW.stomp_config :=
  C9_seeded_config pW envBase reqSeedW seedW (by decide) rfl

/-- C10 witness: the IK argument theorem evaluated at a concrete
Cartesian-goal request. -/
theorem C10_witness :
    (getStartAndGoal pW envBase reqCartW).ikCall =
      some (goalPose goalCartW, IK_ATTEMPTS, IK_TIMEOUT) ∧
    IK_ATTEMPTS = 10 ∧ IK_TIMEOUT = 0 :=
  C10_ik_attempts_and_timeout pW envBase reqCartW startStateW goalCartW [] rfl rfl rfl

end StompMoveit
